import Mathlib

/-!
Verification development for the document-ingestion pipeline
(`tools/data_feeder/pdf_extractor.py` and `tools/data_feeder/pipeline.py`).

Python strings are embedded as `List Char` (`Str`); Python integers as `Nat`;
the float divisions in the size check and the semicolon ratio are embedded in
`ℚ` (for all values these programs can meet the binary floating-point division
by a power of two is exact, so the rational embedding agrees with CPython).
Filesystem and extraction-engine behaviour is passed in explicitly as data
(`FS`, `ExtractEnv`, `ItemEnv`): the code under scrutiny only observes those
collaborators through the recorded fields.
-/

/-- Python `str` embedded as a list of characters. -/
abbrev Str := List Char

/-- Python `p in s` (substring containment) for strings. -/
def containsSub (p : Str) : Str → Bool
  | [] => p.isEmpty
  | c :: tl => List.isPrefixOf p (c :: tl) || containsSub p tl

/-- Python `s.startswith(p)`. -/
def pyStartsWith (p s : Str) : Bool := List.isPrefixOf p s

/-- Python `s.strip()`: drop leading and trailing whitespace. -/
def pyStrip (s : Str) : Str :=
  ((s.dropWhile Char.isWhitespace).reverse.dropWhile Char.isWhitespace).reverse

/-- Python `s.lower()` (ASCII-relevant part). -/
def pyLower (s : Str) : Str := s.map Char.toLower

/-- Decimal digits of a natural number, as characters. -/
def natToStr (n : Nat) : Str := Nat.toDigits 10 n

/-- Insert a thousands separator every three digits; the input and output are
reversed digit lists. -/
def commaGroupRev : List Char → List Char
  | a :: b :: c :: d :: rest => a :: b :: c :: ',' :: commaGroupRev (d :: rest)
  | l => l

/-- Python `f"{n:,}"`: decimal rendering with thousands separators. -/
def commaFormat (n : Nat) : Str :=
  (commaGroupRev (natToStr n).reverse).reverse

/-- The truncation marker appended by `truncate_text`
(`pdf_extractor.py` line 110). -/
def truncMarker (maxLength : Nat) : Str :=
  "\n\n[... Truncated at ".toList ++ commaFormat maxLength ++ " characters ...]".toList

/-- `truncate_text` (`pdf_extractor.py` lines 101-110): cut `text` to
`maxLength` characters and append the marker when it is too long. -/
def truncate_text (text : Str) (maxLength : Nat) : Str × Bool :=
  if text.length ≤ maxLength then (text, false)
  else (text.take maxLength ++ truncMarker maxLength, true)

theorem truncMarker_pos (L : Nat) : 0 < (truncMarker L).length := by
  simp [truncMarker]

/-- C3: truncation is idempotent — applying `truncate_text` at the same limit
to the text it produced returns that text unchanged. -/
theorem truncate_text_idempotent (t : Str) (L : Nat) :
    (truncate_text (truncate_text t L).1 L).1 = (truncate_text t L).1 := by
  unfold truncate_text
  by_cases h : t.length ≤ L
  · simp [h]
  · have hL : L < t.length := Nat.lt_of_not_le h
    have htake : (t.take L).length = L := by
      simp [List.length_take, Nat.min_eq_left (Nat.le_of_lt hL)]
    have hlen : ¬ (t.take L ++ truncMarker L).length ≤ L := by
      have := truncMarker_pos L
      simp only [List.length_append, htake]
      omega
    simp only [h, if_false, hlen]
    have h1 : L ≤ (t.take L).length := by omega
    rw [List.take_append_of_le_length h1, List.take_take]
    simp

/-! Section: Extraction strategy (`extract_text_from_pdf`, `pdf_extractor.py` 113-169)

The three backend calls are embedded through an `ExtractEnv` recording, for
this run, which libraries are importable and what string each backend call
would return for the validated path (a page-marked text, an empty string, or
an `Error (...)` failure string). -/

/-- Availability flags and backend return values for one extraction run. -/
structure ExtractEnv where
  fitz_available : Bool
  pdfplumber_available : Bool
  pypdf2_available : Bool
  fitz_text : Str
  pdfplumber_text : Str
  pypdf2_text : Str
deriving DecidableEq

/-- The failure-string marker: backend errors are returned as strings that
start with `Error`. -/
def errMarker : Str := "Error".toList

/-- Returned when no extraction library is importable
(`pdf_extractor.py` line 167). -/
def noLibErr : Str :=
  "Error: No PDF extraction library available. Install PyMuPDF, pdfplumber, or PyPDF2.".toList

/-- Returned when every attempt left an empty string
(`pdf_extractor.py` line 169). -/
def genericExtractErr : Str := "Error: Could not extract text from PDF".toList

/-- Acceptance test applied to the PyMuPDF and pdfplumber attempts
(`pdf_extractor.py` lines 148 and 155): truthy, not an error string, and
stripped length above the 10-character noise threshold. -/
def backend_ok_thresh (t : Str) : Bool :=
  !t.isEmpty && !pyStartsWith errMarker t && decide (10 < (pyStrip t).length)

/-- Acceptance test applied to the PyPDF2 attempt (`pdf_extractor.py`
line 162): truthy and not an error string — no noise threshold. -/
def backend_ok_nothresh (t : Str) : Bool :=
  !t.isEmpty && !pyStartsWith errMarker t

/-- The value of the mutable `text` variable after all three stages: the
last available backend's return value, or the initial empty string. -/
def last_attempt_text (env : ExtractEnv) : Str :=
  if env.pypdf2_available then env.pypdf2_text
  else if env.pdfplumber_available then env.pdfplumber_text
  else if env.fitz_available then env.fitz_text
  else []

/-- The attempts actually made, in priority order (only available backends
run; each available backend is invoked when reached). -/
def attempts (env : ExtractEnv) : List Str :=
  (if env.fitz_available then [env.fitz_text] else [])
  ++ (if env.pdfplumber_available then [env.pdfplumber_text] else [])
  ++ (if env.pypdf2_available then [env.pypdf2_text] else [])

/-- `extract_text_from_pdf` after path validation (`pdf_extractor.py`
lines 143-169), compiled from the imperative original: each available
backend is tried in order, and the trailing `return text if text else ...`
sees the last assigned value of `text`. -/
def extract_text_from_pdf (env : ExtractEnv) (maxLength : Nat) : Str :=
  if env.fitz_available && backend_ok_thresh env.fitz_text then
    (truncate_text env.fitz_text maxLength).1
  else if env.pdfplumber_available && backend_ok_thresh env.pdfplumber_text then
    (truncate_text env.pdfplumber_text maxLength).1
  else if env.pypdf2_available && backend_ok_nothresh env.pypdf2_text then
    (truncate_text env.pypdf2_text maxLength).1
  else if !(env.fitz_available || env.pdfplumber_available || env.pypdf2_available) then
    noLibErr
  else if (last_attempt_text env).isEmpty then genericExtractErr
  else last_attempt_text env

/-- The strategy as the claim states it (written from the spec's words, for
comparison): accept the first attempt that is not a failure and has
non-trivial stripped content — the same threshold for all three backends —
and if all available backends fail or yield trivial content, return the
last non-empty attempt if any, else the generic extraction failure. -/
def extract_text_spec_claimed (env : ExtractEnv) (maxLength : Nat) : Str :=
  if env.fitz_available && backend_ok_thresh env.fitz_text then
    (truncate_text env.fitz_text maxLength).1
  else if env.pdfplumber_available && backend_ok_thresh env.pdfplumber_text then
    (truncate_text env.pdfplumber_text maxLength).1
  else if env.pypdf2_available && backend_ok_thresh env.pypdf2_text then
    (truncate_text env.pypdf2_text maxLength).1
  else if attempts env = [] then noLibErr
  else
    match ((attempts env).filter (fun t => !t.isEmpty)).getLast? with
    | some t => t
    | none => genericExtractErr

/-- The amended strategy statement: as the claim, except that the third
backend (PyPDF2) is accepted without the noise threshold, and the fallback
is the final attempt value (the last available backend's return) if that is
non-empty, not the last non-empty attempt. -/
def extract_text_spec_amended (env : ExtractEnv) (maxLength : Nat) : Str :=
  if env.fitz_available && backend_ok_thresh env.fitz_text then
    (truncate_text env.fitz_text maxLength).1
  else if env.pdfplumber_available && backend_ok_thresh env.pdfplumber_text then
    (truncate_text env.pdfplumber_text maxLength).1
  else if env.pypdf2_available && backend_ok_nothresh env.pypdf2_text then
    (truncate_text env.pypdf2_text maxLength).1
  else if attempts env = [] then noLibErr
  else if (last_attempt_text env).isEmpty then genericExtractErr
  else last_attempt_text env

/-- A run in which PyMuPDF yields trivial text, pdfplumber is absent, and
PyPDF2 yields an empty string. -/
def cexExtractEnv : ExtractEnv :=
  { fitz_available := true
    pdfplumber_available := false
    pypdf2_available := true
    fitz_text := "abc".toList
    pdfplumber_text := []
    pypdf2_text := [] }

/-- C2 counterexample: with a trivial PyMuPDF attempt (`"abc"`) and an empty
PyPDF2 attempt, the code returns the generic extraction-failure error, while
the claimed strategy returns the last non-empty attempt `"abc"`. -/
theorem extract_strategy_claim_false :
    extract_text_from_pdf cexExtractEnv 500000 = genericExtractErr ∧
    extract_text_spec_claimed cexExtractEnv 500000 = "abc".toList ∧
    extract_text_from_pdf cexExtractEnv 500000 ≠
      extract_text_spec_claimed cexExtractEnv 500000 := by
  refine ⟨by decide, by decide, by decide⟩

/-- C2 (amended): the strategy tries the backends in the fixed priority
order, accepting the first non-failure attempt that passes the threshold —
except that PyPDF2 is accepted merely for being non-empty and not a failure —
and when nothing is accepted it returns the no-library error if no backend
is available, else the final attempt value if non-empty, else the generic
extraction-failure error. -/
theorem extract_strategy_amended (env : ExtractEnv) (L : Nat) :
    extract_text_from_pdf env L = extract_text_spec_amended env L := by
  obtain ⟨fa, pa, ya, ft, pt, yt⟩ := env
  cases fa <;> cases pa <;> cases ya <;>
    simp [extract_text_from_pdf, extract_text_spec_amended, attempts,
      last_attempt_text]

/-! Section: Backend adapters (`_extract_with_fitz` / `_extract_with_pdfplumber` /
`_extract_with_pypdf2`, `pdf_extractor.py` 198-266)

A document is embedded as the list of its pages' raw text (`List Str`);
each adapter builds `text_parts` and joins on a blank line. The PyMuPDF
adapter additionally manipulates a document handle that it closes at line
211 and then touches again: `len` on a closed PyMuPDF handle raises
`ValueError("document closed")`, so that access is embedded as a fallible
operation. -/

/-- The page header `--- Page {i+1}/{total} ---\n`. -/
def pageHeader (i total : Nat) : Str :=
  "--- Page ".toList ++ natToStr (i + 1) ++ "/".toList ++ natToStr total
    ++ " ---\n".toList

/-- The explicit marker substituted for a page with no extractable text. -/
def noTextMarker : Str := "(No text extracted)".toList

/-- The trailing note `\n[... {d} more pages not extracted (limit: {k}) ...]`. -/
def morePagesNote (d k : Nat) : Str :=
  "\n[... ".toList ++ natToStr d ++ " more pages not extracted (limit: ".toList
    ++ natToStr k ++ ") ...]".toList

/-- One `text_parts` entry of `_extract_with_fitz` (lines 207-210): the page
text is considered empty when it strips to nothing. -/
def fitz_page_block (i total : Nat) (raw : Str) : Str :=
  if !(pyStrip raw).isEmpty then pageHeader i total ++ raw
  else pageHeader i total ++ noTextMarker

/-- One `text_parts` entry of `_extract_with_pdfplumber` (lines 232-235):
the page text is considered empty when it is the empty string. -/
def pdfplumber_page_block (i total : Nat) (raw : Str) : Str :=
  if !raw.isEmpty then pageHeader i total ++ raw
  else pageHeader i total ++ noTextMarker

/-- One `text_parts` entry of `_extract_with_pypdf2` (lines 256-259). -/
def pypdf2_page_block (i total : Nat) (raw : Str) : Str :=
  if !raw.isEmpty then pageHeader i total ++ raw
  else pageHeader i total ++ noTextMarker

/-- A PyMuPDF document handle: the page texts it yields and whether
`close()` has been called on it. -/
structure FitzDoc where
  pages : List Str
  isClosed : Bool

/-- `fitz.open` on a readable document (`pdf_extractor.py` line 202). -/
def fitz_open (pages : List Str) : FitzDoc := ⟨pages, false⟩

/-- `doc.close()` (`pdf_extractor.py` line 211). -/
def fitz_close (d : FitzDoc) : FitzDoc := ⟨d.pages, true⟩

/-- `len(doc)`: PyMuPDF delegates to `Document.page_count`, which raises
`ValueError("document closed")` once the handle is closed. -/
def fitz_len (d : FitzDoc) : Except Str Nat :=
  if d.isClosed then Except.error "document closed".toList
  else Except.ok d.pages.length

/-- The `except Exception as e: return f"Error (PyMuPDF): {e}"` handler
(`pdf_extractor.py` lines 217-218). -/
def fitzErrString (e : Str) : Str := "Error (PyMuPDF): ".toList ++ e

/-- The `text_parts` list of `_extract_with_pdfplumber` (lines 225-238). -/
def pdfplumber_text_parts (pages : List Str) (maxPages : Nat) : List Str :=
  ((List.range (min pages.length maxPages)).map
    (fun i => pdfplumber_page_block i pages.length (pages.getD i [])))
  ++ (if maxPages < pages.length
      then [morePagesNote (pages.length - maxPages) maxPages] else [])

/-- The `text_parts` list of `_extract_with_pypdf2` (lines 248-262). -/
def pypdf2_text_parts (pages : List Str) (maxPages : Nat) : List Str :=
  ((List.range (min pages.length maxPages)).map
    (fun i => pypdf2_page_block i pages.length (pages.getD i [])))
  ++ (if maxPages < pages.length
      then [morePagesNote (pages.length - maxPages) maxPages] else [])

/-- `_extract_with_fitz` (`pdf_extractor.py` 198-218) for a document that
opens and reads without an engine error: the loop (lines 204-210) builds
one `text_parts` block per processed page while the handle is open,
`doc.close()` runs at line 211, and the guard `if len(doc) > max_pages`
at line 213 then calls `len` on the closed handle; any raise lands in the
`except` at line 217. -/
def extract_with_fitz (pages : List Str) (maxPages : Nat) : Str :=
  let doc := fitz_open pages
  match fitz_len doc with
  | Except.error e => fitzErrString e
  | Except.ok n =>
    let parts := (List.range (min n maxPages)).map
      (fun i => fitz_page_block i n (pages.getD i []))
    let closedDoc := fitz_close doc
    match fitz_len closedDoc with
    | Except.error e => fitzErrString e
    | Except.ok n2 =>
      List.intercalate "\n\n".toList
        (parts ++ (if maxPages < n2
          then [morePagesNote (n2 - maxPages) maxPages] else []))

/-- `_extract_with_pdfplumber` happy path. -/
def extract_with_pdfplumber (pages : List Str) (maxPages : Nat) : Str :=
  List.intercalate "\n\n".toList (pdfplumber_text_parts pages maxPages)

/-- `_extract_with_pypdf2` happy path. -/
def extract_with_pypdf2 (pages : List Str) (maxPages : Nat) : Str :=
  List.intercalate "\n\n".toList (pypdf2_text_parts pages maxPages)

/-- Structure of a `range`-mapped block list followed by a single note. -/
theorem parts_shape (f : Nat → Str) (note : Str) (k : Nat) :
    (((List.range k).map f) ++ [note]).length = k + 1 ∧
    (((List.range k).map f) ++ [note]).getLast? = some note ∧
    ∀ i, i < k → (((List.range k).map f) ++ [note])[i]? = some (f i) := by
  refine ⟨by simp, ?_, ?_⟩
  · rw [List.getLast?_concat]
  · intro i hi
    rw [List.getElem?_append_left (by simpa using hi)]
    simp [List.getElem?_range hi]

/-- What C6 asserts of one adapter's part list for a document of `N` pages
truncated at `k`: exactly `k` page blocks — the i-th being the block for
page i — followed by the single trailing note for `N - k` pages at limit
`k`. -/
def AdapterPartsClaim (parts : List Str) (block : Nat → Nat → Str → Str)
    (pages : List Str) (k : Nat) : Prop :=
  parts.length = k + 1 ∧
  parts.getLast? = some (morePagesNote (pages.length - k) k) ∧
  ∀ i, i < k → parts[i]? = some (block i pages.length (pages.getD i []))

/-- C6: the claim fails on the PyMuPDF adapter: `_extract_with_fitz`
closes the document at line 211 and then evaluates `len(doc)` in the limit
guard at line 213, so for every document it returns the caught
`Error (PyMuPDF): document closed` string — never the page blocks and
trailing note the claim (and the adapter's own dead lines 213-216)
describe. The pdfplumber and PyPDF2 adapters, which reuse the saved
`total_pages` count, do emit exactly `k` page blocks plus the single
trailing note as claimed. -/
theorem adapters_page_blocks_code_bug (pages : List Str) (k : Nat)
    (h : k < pages.length) :
    extract_with_fitz pages k = fitzErrString "document closed".toList ∧
    AdapterPartsClaim (pdfplumber_text_parts pages k) pdfplumber_page_block
      pages k ∧
    AdapterPartsClaim (pypdf2_text_parts pages k) pypdf2_page_block pages k := by
  have hmin : min pages.length k = k := Nat.min_eq_right (Nat.le_of_lt h)
  refine ⟨rfl, ?_, ?_⟩
  · unfold AdapterPartsClaim pdfplumber_text_parts
    rw [hmin, if_pos h]
    exact parts_shape _ _ k
  · unfold AdapterPartsClaim pypdf2_text_parts
    rw [hmin, if_pos h]
    exact parts_shape _ _ k

/-- C6 witness: on a 50-page document with `maxPages = 10` the PyMuPDF
adapter returns the closed-document error string, while pdfplumber and
PyPDF2 yield exactly 10 page blocks plus the trailing note for 40 more
pages at limit 10. -/
theorem adapters_page_blocks_code_bug_witness :
    10 < (List.replicate 50 (['x'] : Str)).length ∧
    (extract_with_fitz (List.replicate 50 ['x']) 10 =
        fitzErrString "document closed".toList ∧
      AdapterPartsClaim (pdfplumber_text_parts (List.replicate 50 ['x']) 10)
        pdfplumber_page_block (List.replicate 50 ['x']) 10 ∧
      AdapterPartsClaim (pypdf2_text_parts (List.replicate 50 ['x']) 10)
        pypdf2_page_block (List.replicate 50 ['x']) 10) :=
  ⟨by decide,
    adapters_page_blocks_code_bug (List.replicate 50 ['x']) 10 (by decide)⟩

/-! Section: Script/font detection (`pipeline.py` 87-128) -/

/-- Python `'඀' <= char <= '෿'`: the Sinhala Unicode block. -/
def isSinhalaChar (c : Char) : Bool :=
  0x0D80 ≤ c.toNat && c.toNat ≤ 0x0DFF

/-- Python `'஀' <= char <= '௿'`: the Tamil Unicode block. -/
def isTamilChar (c : Char) : Bool :=
  0x0B80 ≤ c.toNat && c.toNat ≤ 0x0BFF

/-- Python `char.isascii() and char.isalpha()`: an ASCII letter. -/
def isEnglishChar (c : Char) : Bool :=
  c.toNat ≤ 0x7F &&
    ((0x41 ≤ c.toNat && c.toNat ≤ 0x5A) || (0x61 ≤ c.toNat && c.toNat ≤ 0x7A))

/-- The language flags returned by `detect_languages`. -/
structure Languages where
  has_sinhala : Bool
  has_tamil : Bool
  has_english : Bool
deriving DecidableEq

/-- `RAGPipeline.detect_languages` (`pipeline.py` 87-97). -/
def detect_languages (t : Str) : Languages :=
  { has_sinhala := t.any isSinhalaChar
    has_tamil := t.any isTamilChar
    has_english := t.any isEnglishChar }

/-- The legacy-font indicator substrings (`pipeline.py` line 113). -/
def fm_patterns : List Str :=
  [";a".toList, ";s".toList, ";j".toList, ";d".toList, ";l".toList,
    ";k".toList, "WIaK".toList, "fld".toList, "fjk".toList]

/-- `RAGPipeline.detect_legacy_font` (`pipeline.py` 99-116). The float
ratio comparison against `0.03` is embedded in `ℚ` as `3 / 100`. -/
def detect_legacy_font (t : Str) : Bool :=
  if t.isEmpty ∨ t.length < 20 then false
  else if t.any isSinhalaChar then false
  else
    let total := t.length
    let semicolonRatio : ℚ :=
      if 0 < total then (t.count ';' : ℚ) / (total : ℚ) else 0
    let fmCount := fm_patterns.countP (fun p => containsSub p t)
    decide (3 / 100 < semicolonRatio) || decide (3 ≤ fmCount)

/-- C7: whenever `detect_languages` reports Sinhala presence, the
legacy-font flag is false, regardless of the semicolon ratio or pattern
count. -/
theorem legacy_false_on_sinhala (t : Str)
    (h : (detect_languages t).has_sinhala = true) :
    detect_legacy_font t = false := by
  have h2 : t.any isSinhalaChar = true := h
  unfold detect_legacy_font
  split
  · rfl
  · simp [h2]

/-- C7 witness: a single Sinhala letter sets `has_sinhala` and the
legacy-font flag is false on it. -/
theorem legacy_false_on_sinhala_witness :
    (detect_languages [Char.ofNat 0x0D9A]).has_sinhala = true ∧
    detect_legacy_font [Char.ofNat 0x0D9A] = false :=
  ⟨by decide, legacy_false_on_sinhala _ (by decide)⟩

/-- `RAGPipeline.get_unicode_status` (`pipeline.py` 118-128). -/
def get_unicode_status (l : Languages) (is_legacy : Bool) : Str :=
  if is_legacy then "INVALID (Legacy Font)".toList
  else if l.has_sinhala then "VALID (Sinhala Unicode)".toList
  else if l.has_tamil then "VALID (Tamil Unicode)".toList
  else if l.has_english then "VALID (English)".toList
  else "UNKNOWN".toList

/-- The status derivation as the spec words it: a first-match priority
table over the flag combination. -/
def unicode_status_spec (l : Languages) (is_legacy : Bool) : Str :=
  match is_legacy, l.has_sinhala, l.has_tamil, l.has_english with
  | true, _, _, _ => "INVALID (Legacy Font)".toList
  | false, true, _, _ => "VALID (Sinhala Unicode)".toList
  | false, false, true, _ => "VALID (Tamil Unicode)".toList
  | false, false, false, true => "VALID (English)".toList
  | false, false, false, false => "UNKNOWN".toList

/-- C8: for every combination of language flags and legacy flag, the
unicode status is derived by first match in the stated order — legacy,
then Sinhala, then Tamil, then English, else unknown. -/
theorem unicode_status_first_match (l : Languages) (is_legacy : Bool) :
    get_unicode_status l is_legacy = unicode_status_spec l is_legacy := by
  obtain ⟨s, t, e⟩ := l
  cases is_legacy <;> cases s <;> cases t <;> cases e <;> rfl

/-! Section: Path validation (`validate_pdf_path`, `pdf_extractor.py` 49-98)

The filesystem is passed in as an `FS` record describing what the OS would
answer for this input: whether `Path(raw).resolve()` succeeds (it raises for
example on an embedded NUL byte), the resolved path string, the stat answers
and the resolved path's extension. The function also returns the ordered
trace of filesystem operations it performed. -/

/-- The `PDFSecurityError` variants, one per raising site. -/
inductive SecErr
  | invalidPath
  | invalidFormat
  | traversal
  | notFound
  | notAFile
  | invalidType
  | tooLarge
deriving DecidableEq

/-- Filesystem operations observable from `validate_pdf_path`. -/
inductive FSOp
  | opResolve
  | opExists
  | opIsFile
  | opStat
deriving DecidableEq

/-- What the OS would answer about the candidate path in this run. -/
structure FS where
  resolveOk : Bool
  resolved : Str
  pathExists : Bool
  pathIsFile : Bool
  suffix : Str
  sizeBytes : Nat
deriving DecidableEq

/-- A Python value passed as the `pdf_path` argument. -/
inductive PyInput
  | pyNone
  | pyBytes (bs : List Nat)
  | pyPathObj (p : Str)
  | pyStr (s : Str)
deriving DecidableEq

/-- Whether the argument is a `str` instance. -/
def isStrInput : PyInput → Bool
  | .pyStr _ => true
  | _ => false

/-- `ALLOWED_EXTENSIONS` (`pdf_extractor.py` line 18). -/
def ALLOWED_EXTENSIONS : List Str := [".pdf".toList]

/-- The parent-directory traversal token. -/
def dotdot : Str := "..".toList

/-- `validate_pdf_path` (`pdf_extractor.py` 68-98) over an explicit
filesystem, also returning the trace of filesystem operations. `maxMB` is
the configured `MAX_FILE_SIZE_MB` (100 in the source); the float division
`st_size / (1024 * 1024)` is embedded exactly in `ℚ`. -/
def validate_pdf_path (inp : PyInput) (fs : FS) (maxMB : Nat) :
    Except SecErr Str × List FSOp :=
  match inp with
  | .pyStr raw =>
    if raw.isEmpty then (Except.error SecErr.invalidPath, [])
    else if !fs.resolveOk then (Except.error SecErr.invalidFormat, [FSOp.opResolve])
    else if containsSub dotdot raw then
      (Except.error SecErr.traversal, [FSOp.opResolve])
    else if !fs.pathExists then
      (Except.error SecErr.notFound, [FSOp.opResolve, FSOp.opExists])
    else if !fs.pathIsFile then
      (Except.error SecErr.notAFile, [FSOp.opResolve, FSOp.opExists, FSOp.opIsFile])
    else if pyLower fs.suffix ∉ ALLOWED_EXTENSIONS then
      (Except.error SecErr.invalidType,
        [FSOp.opResolve, FSOp.opExists, FSOp.opIsFile])
    else if (maxMB : ℚ) < (fs.sizeBytes : ℚ) / (1024 * 1024) then
      (Except.error SecErr.tooLarge,
        [FSOp.opResolve, FSOp.opExists, FSOp.opIsFile, FSOp.opStat])
    else
      (Except.ok fs.resolved,
        [FSOp.opResolve, FSOp.opExists, FSOp.opIsFile, FSOp.opStat])
  | _ => (Except.error SecErr.invalidPath, [])

/-- A filesystem record on which every check passes. -/
def okFS : FS :=
  { resolveOk := true
    resolved := "/data/report.pdf".toList
    pathExists := true
    pathIsFile := true
    suffix := ".pdf".toList
    sizeBytes := 1024 }

/-- C4 counterexample: the raw string `"..\x00"` contains the traversal
token, but `Path(raw).resolve()` raises on the embedded NUL byte before the
traversal check runs (`pdf_extractor.py` resolves at line 73, checks `..`
at line 78), so validation fails with the invalid-format error, not the
path-traversal one. -/
theorem validate_order_claim_false :
    validate_pdf_path (PyInput.pyStr ['.', '.', Char.ofNat 0])
        { okFS with resolveOk := false } 100 =
      (Except.error SecErr.invalidFormat, [FSOp.opResolve]) ∧
    SecErr.invalidFormat ≠ SecErr.traversal := by
  refine ⟨by rfl, by decide⟩

/-- C4 (amended): the checks run in the order non-empty-string, path
resolution, traversal rejection on the raw string, existence, regular file,
extension, size; consequently every non-empty raw path containing `..`
whose resolution succeeds is rejected with the path-traversal error after
the resolution call and before any existence or size stat. -/
theorem validate_traversal_rejected (raw : Str) (fs : FS) (maxMB : Nat)
    (hne : raw ≠ []) (hdots : containsSub dotdot raw = true)
    (hres : fs.resolveOk = true) :
    validate_pdf_path (PyInput.pyStr raw) fs maxMB =
      (Except.error SecErr.traversal, [FSOp.opResolve]) := by
  have hempty : raw.isEmpty = false := by
    cases raw with
    | nil => exact absurd rfl hne
    | cons c tl => rfl
  simp [validate_pdf_path, hempty, hres, hdots]

/-- C4 witness: the scenario path `"../etc/passwd.pdf"` is rejected as a
traversal attempt with only the resolution touching the filesystem. -/
theorem validate_traversal_rejected_witness :
    "../etc/passwd.pdf".toList ≠ ([] : Str) ∧
    containsSub dotdot "../etc/passwd.pdf".toList = true ∧
    okFS.resolveOk = true ∧
    validate_pdf_path (PyInput.pyStr "../etc/passwd.pdf".toList) okFS 100 =
      (Except.error SecErr.traversal, [FSOp.opResolve]) :=
  ⟨by decide, by decide, by decide,
    validate_traversal_rejected _ _ _ (by decide) (by decide) (by decide)⟩

/-- C5: with the ceiling configured at `M` megabytes, a file of exactly
`M * 1024 * 1024` bytes passes the size check and validates when all other
checks pass, while one more byte is rejected as too large. The float
division in the source is exact here (division by the power of two
`2 ^ 20` only shifts the exponent), so the `ℚ` embedding agrees with it
for every realistic size. -/
theorem size_ceiling_boundary (M : Nat) (raw : Str) (fs : FS)
    (hne : raw ≠ []) (hdots : containsSub dotdot raw = false)
    (hres : fs.resolveOk = true) (hex : fs.pathExists = true)
    (hfile : fs.pathIsFile = true)
    (hsuf : pyLower fs.suffix = ".pdf".toList) :
    (validate_pdf_path (PyInput.pyStr raw)
        { fs with sizeBytes := M * 1024 * 1024 } M).1 = Except.ok fs.resolved ∧
    (validate_pdf_path (PyInput.pyStr raw)
        { fs with sizeBytes := M * 1024 * 1024 + 1 } M).1 =
      Except.error SecErr.tooLarge := by
  have hempty : raw.isEmpty = false := by
    cases raw with
    | nil => exact absurd rfl hne
    | cons c tl => rfl
  have hc : (0 : ℚ) < 1024 * 1024 := by norm_num
  have hA : ¬ ((M : ℚ) < (M : ℚ) * 1024 * 1024 / (1024 * 1024)) := by
    have hassoc : (M : ℚ) * 1024 * 1024 = (M : ℚ) * (1024 * 1024) := by ring
    rw [hassoc, mul_div_cancel_right₀ _ (ne_of_gt hc)]
    exact lt_irrefl _
  have hB : (M : ℚ) < ((M : ℚ) * 1024 * 1024 + 1) / (1024 * 1024) := by
    rw [lt_div_iff₀ hc]
    have hassoc : (M : ℚ) * (1024 * 1024) = (M : ℚ) * 1024 * 1024 := by ring
    rw [hassoc]
    linarith
  obtain ⟨ro, res, pe, pf, suf, sz⟩ := fs
  simp only at hres hex hfile hsuf
  subst hres
  subst hex
  subst hfile
  constructor
  · simp [validate_pdf_path, hempty, hdots, hsuf, ALLOWED_EXTENSIONS, hA]
  · simp [validate_pdf_path, hempty, hdots, hsuf, ALLOWED_EXTENSIONS, hB]

/-- C5 witness: at `M = 100` a `104857600`-byte file validates and a
`104857601`-byte file is rejected as too large. -/
theorem size_ceiling_boundary_witness :
    "/data/report.pdf".toList ≠ ([] : Str) ∧
    containsSub dotdot "/data/report.pdf".toList = false ∧
    okFS.resolveOk = true ∧ okFS.pathExists = true ∧ okFS.pathIsFile = true ∧
    pyLower okFS.suffix = ".pdf".toList ∧
    ((validate_pdf_path (PyInput.pyStr "/data/report.pdf".toList)
        { okFS with sizeBytes := 100 * 1024 * 1024 } 100).1 =
      Except.ok okFS.resolved ∧
    (validate_pdf_path (PyInput.pyStr "/data/report.pdf".toList)
        { okFS with sizeBytes := 100 * 1024 * 1024 + 1 } 100).1 =
      Except.error SecErr.tooLarge) :=
  ⟨by decide, by decide, by decide, by decide, by decide, by decide,
    size_ceiling_boundary 100 _ _ (by decide) (by decide) (by decide)
      (by decide) (by decide) (by decide)⟩

/-- C10: every non-`str` argument — `None`, `bytes`, or a `pathlib.Path`
object, even over a filesystem where every later check would pass — is
rejected with the invalid-path error before any filesystem operation, so
only `str` values can validate. -/
theorem validate_requires_str (inp : PyInput) (fs : FS) (maxMB : Nat)
    (h : isStrInput inp = false) :
    validate_pdf_path inp fs maxMB = (Except.error SecErr.invalidPath, []) := by
  cases inp with
  | pyStr s => simp [isStrInput] at h
  | pyNone => rfl
  | pyBytes bs => rfl
  | pyPathObj p => rfl

/-- C10 witness: a `pathlib.Path` argument naming an existing valid PDF is
still rejected up front. -/
theorem validate_requires_str_witness :
    isStrInput (PyInput.pyPathObj "/data/report.pdf".toList) = false ∧
    validate_pdf_path (PyInput.pyPathObj "/data/report.pdf".toList) okFS 100 =
      (Except.error SecErr.invalidPath, []) :=
  ⟨by decide, validate_requires_str _ okFS 100 (by decide)⟩

/-! Section: Pipeline orchestrator (`pipeline.py` 32-341, 386-415)

`process_pdf` observes its collaborators (`validate_pdf_path`,
`get_pdf_info`, `extract_text_from_pdf`) through an `ItemEnv` record of
their outcomes for the given path; the `PDFSecurityError` caught at the
top carries its message string. The pipeline state is the `self.results`
list. -/

/-- `DocumentMetadata` (`pipeline.py` 32-47). -/
structure DocumentMetadata where
  file_name : Str
  file_path : Str
  file_size_mb : ℚ
  page_count : Nat
  text_length : Nat
  has_sinhala : Bool
  has_tamil : Bool
  has_english : Bool
  is_legacy_font : Bool
  unicode_status : Str
  source_url : Option Str
  processed_at : Option Str
  error : Option Str
deriving DecidableEq

/-- `PipelineResult` (`pipeline.py` 50-57). -/
structure PipelineResult where
  success : Bool
  file_path : Option Str
  text : Option Str
  metadata : Option DocumentMetadata
  error : Option Str
deriving DecidableEq

/-- Collaborator outcomes observed by `process_pdf` for one item. -/
structure ItemEnv where
  validated : Except Str Str
  file_name : Str
  info_is_valid : Bool
  info_error : Option Str
  info_size_mb : ℚ
  info_page_count : Nat
  extracted : Str
  timestamp : Str

/-- `RAGPipeline.process_pdf` (`pipeline.py` 130-219) as a transition on
the `self.results` list: it returns the produced `PipelineResult` and the
new results list. Only the success path at line 201 appends to
`self.results`; all four failure returns leave the list unchanged. -/
def process_pdf (env : ItemEnv) (pdf_path : Str) (source_url : Option Str)
    (results : List PipelineResult) : PipelineResult × List PipelineResult :=
  match env.validated with
  | .error e =>
    ({ success := false, file_path := some pdf_path, text := none,
       metadata := none, error := some ("Security Error: ".toList ++ e) },
     results)
  | .ok vp =>
    if !env.info_is_valid then
      ({ success := false, file_path := some vp, text := none,
         metadata := none,
         error := some (env.info_error.getD "Invalid PDF".toList) },
       results)
    else if pyStartsWith errMarker env.extracted then
      ({ success := false, file_path := some vp, text := none,
         metadata := none, error := some env.extracted },
       results)
    else
      let languages := detect_languages env.extracted
      let is_legacy := detect_legacy_font env.extracted
      let status := get_unicode_status languages is_legacy
      let md : DocumentMetadata :=
        { file_name := env.file_name
          file_path := vp
          file_size_mb := env.info_size_mb
          page_count := env.info_page_count
          text_length := env.extracted.length
          has_sinhala := languages.has_sinhala
          has_tamil := languages.has_tamil
          has_english := languages.has_english
          is_legacy_font := is_legacy
          unicode_status := status
          source_url := source_url
          processed_at := some env.timestamp
          error := none }
      let r : PipelineResult :=
        { success := true, file_path := some vp, text := some env.extracted,
          metadata := some md, error := none }
      (r, results ++ [r])

/-- One entry of the persisted summary's `results` array. -/
inductive SummaryEntry
  | meta (m : DocumentMetadata)
  | failure (file_path : Option Str) (error : Option Str)
deriving DecidableEq

/-- The content of `pipeline_summary.json`. -/
structure Summary where
  total_files : Nat
  successful : Nat
  failed : Nat
  entries : List SummaryEntry
deriving DecidableEq

/-- `RAGPipeline.save_all_results` (`pipeline.py` 386-415): the summary is
computed from `self.results` alone. -/
def save_all_results (results : List PipelineResult) : Summary :=
  { total_files := results.length
    successful := results.countP (fun r => r.success)
    failed := results.countP (fun r => !r.success)
    entries := results.map (fun r =>
      match r.metadata with
      | some m => SummaryEntry.meta m
      | none => SummaryEntry.failure r.file_path r.error) }

/-- An item whose path validation raises `File not found`. -/
def failItemEnv : ItemEnv :=
  { validated := Except.error "File not found: missing.pdf".toList
    file_name := []
    info_is_valid := false
    info_error := none
    info_size_mb := 0
    info_page_count := 0
    extracted := []
    timestamp := [] }

/-- C1: processing a failing item produces a failed `PipelineResult` that
is never appended to `self.results`, so the persisted summary of that run
reports zero files and an empty results array — the failed item is
silently omitted, contradicting the claimed complete reporting (the
failure branch of `save_all_results` is unreachable from the pipeline's
own appends). -/
theorem summary_omits_failures :
    (process_pdf failItemEnv "missing.pdf".toList none []).1.success = false ∧
    (process_pdf failItemEnv "missing.pdf".toList none []).2 = [] ∧
    save_all_results (process_pdf failItemEnv "missing.pdf".toList none []).2 =
      { total_files := 0, successful := 0, failed := 0, entries := [] } :=
  ⟨rfl, rfl, rfl⟩

/-- The failed `PipelineResult` built from a gathered exception
(`pipeline.py` 330-337): `str(result)` becomes the error field. -/
def exceptionResult (e : Str) : PipelineResult :=
  { success := false, file_path := none, text := none, metadata := none,
    error := some e }

/-- `RAGPipeline.batch_process_async` (`pipeline.py` 304-341). The per-item
behaviour of `download_and_process_async` is passed in as `f`, mapping a
URL to either its `PipelineResult` or the message of the exception it
raised; `asyncio.gather(..., return_exceptions=True)` delivers one outcome
per task in submission order (its documented contract — the semaphore
bounded by `maxConcurrent` only limits how many run at once), and the
trailing loop converts exceptions into failed results. -/
def batch_process_async (f : Str → Except Str PipelineResult)
    (urls : List Str) (maxConcurrent : Nat) : List PipelineResult :=
  let results := urls.map f
  results.map (fun r =>
    match r with
    | .error e => exceptionResult e
    | .ok res => res)

/-- What C9 asserts: the batch returns one entry per input URL, the i-th
entry being the i-th URL's result in submission order, with an exception
converted into that item's failed result rather than dropped or
propagated. -/
def BatchOrderClaim (f : Str → Except Str PipelineResult)
    (urls : List Str) (maxConcurrent : Nat) : Prop :=
  (batch_process_async f urls maxConcurrent).length = urls.length ∧
  ∀ i, (h : i < urls.length) →
    (batch_process_async f urls maxConcurrent)[i]? =
      some (match f (urls.get ⟨i, h⟩) with
        | .ok r => r
        | .error e => exceptionResult e) ∧
    (∀ e, f (urls.get ⟨i, h⟩) = Except.error e →
      ((batch_process_async f urls maxConcurrent).getD i
        (exceptionResult [])).success = false)

/-- C9: for every input list and every `maxConcurrent ≥ 1`, the batch
result list has the input's length and its i-th entry is the i-th URL's
outcome — submission order — with exceptions captured as failed results. -/
theorem batch_preserves_order (f : Str → Except Str PipelineResult)
    (urls : List Str) (maxConcurrent : Nat) (hmc : 1 ≤ maxConcurrent) :
    BatchOrderClaim f urls maxConcurrent := by
  refine ⟨by simp [batch_process_async], ?_⟩
  intro i h
  have hget : urls[i]? = some (urls.get ⟨i, h⟩) := by
    simp [List.getElem?_eq_getElem h]
  have hmap : (batch_process_async f urls maxConcurrent)[i]? =
      some (match f (urls.get ⟨i, h⟩) with
        | .ok r => r
        | .error e => exceptionResult e) := by
    simp only [batch_process_async, List.getElem?_map, hget]
    cases hfx : f (urls.get ⟨i, h⟩) <;>
      (rw [List.get_eq_getElem] at hfx; simp [hfx])
  refine ⟨hmap, ?_⟩
  intro e he
  have : (batch_process_async f urls maxConcurrent).getD i (exceptionResult []) =
      exceptionResult e := by
    rw [List.getD_eq_getElem?_getD, hmap, he]
    rfl
  rw [this]
  rfl

/-- C9 witness: a two-URL batch in which the second URL's processing
raises; the result list has two entries in submission order and the raised
exception appears as a failed result. -/
theorem batch_preserves_order_witness :
    1 ≤ 3 ∧
    BatchOrderClaim
      (fun u => if u = "bad".toList
        then Except.error "boom".toList
        else Except.ok (exceptionResult "placeholder".toList))
      ["good".toList, "bad".toList] 3 :=
  ⟨by decide, batch_preserves_order _ _ 3 (by decide)⟩
